import Mathlib

/-!
Verification development for the `manager` contract of the `contracts`
repository (a ledger-resident job scheduler on NEAR).

The definitions below are a shallow embedding of `src/manager/src/lib.rs`,
`src/manager/src/tasks.rs` and `src/manager/src/agent.rs`:

* `u64` values are `Nat` with explicit `% 2^64` (`w64`) at the operations
  where Rust release-profile arithmetic wraps.  The repository ships no
  Cargo profile under `src/`, so the release default (no overflow checks,
  two's-complement wrap) is used; division and remainder by zero trap in
  Rust under every profile, so divisions whose divisor is not a literal
  constant are modelled with `checkedDiv` returning `Option`.
* `u128` balance arithmetic is `Nat`: NEAR balances are bounded by the
  total supply (about 10^33), far below `2^128`, so `u128` wrap is
  unreachable on the balance paths.
* the host ledger and the external cadence resolver (the `cron_schedule`
  crate) are out of scope per the spec; they enter through `Env`:
  `parses c` models `Schedule::from_str(c).is_ok()` and `next_after c ts`
  models `Schedule::next_after(&ts)` (`none` when the schedule has no
  later occurrence).  A NEAR panic aborts the whole transaction with no
  state change, so every entry point is a pure function returning
  `Except String (...)` whose error branch discards the candidate state.
* `env::sha256` of the Debug-format of the four identity fields is a
  trusted host primitive, injective on those inputs; it is modelled by the
  `TaskKey` record of the four fields themselves.
* `slot_granularity` is `SLOT_GRANULARITY = 60` at initialization and is
  writable only by the owner-configuration collaborator (outside this
  core per the spec); Rust `%` traps on a zero modulus while Lean `% 0`
  is total, so theorems about the slot math carry `1 ≤ slot_granularity`.
-/

namespace Manager

/-! Constants from `src/manager/src/lib.rs`. -/

def GAS_BASE_PRICE : Nat := 100000000

def GAS_BASE_FEE : Nat := 3000000000000

def AGENT_BASE_FEE : Nat := 1000000000000000000000

def MAX_BLOCK_RANGE : Nat := 1000000000000000

def SLOT_GRANULARITY : Nat := 60

def NANO : Nat := 1000000000

def BPS_DENOMINATOR : Nat := 1000

/-- The size of the `u64` value space. -/
def U64SIZE : Nat := 18446744073709551616

/-- Rust `u64` wrapping normalisation. -/
def w64 (x : Nat) : Nat := x % U64SIZE

/-- Rust `u64` wrapping subtraction (release profile, overflow checks off);
for `a b < 2^64` this is two's-complement `a.wrapping_sub b`. -/
def wsub (a b : Nat) : Nat := (a + U64SIZE - b) % U64SIZE

/-- Rust integer division: traps (`none`) on a zero divisor. -/
def checkedDiv (a b : Nat) : Option Nat := if b = 0 then none else some (a / b)

/-! Association-list maps.  `near_sdk` `LookupMap`/`UnorderedMap`/`TreeMap`
are key-value stores; they are modelled as association lists whose insert
replaces any previous binding.  `floor_key` mirrors `TreeMap::floor_key`:
the greatest stored key `≤ x`. -/

def alist_get {κ α : Type} [DecidableEq κ] (k : κ) : List (κ × α) → Option α
  | [] => none
  | p :: l => if p.1 = k then some p.2 else alist_get k l

def alist_insert {κ α : Type} [DecidableEq κ] (k : κ) (v : α) (l : List (κ × α)) : List (κ × α) :=
  (k, v) :: l.filter (fun p => decide (p.1 ≠ k))

def alist_remove {κ α : Type} [DecidableEq κ] (k : κ) (l : List (κ × α)) : List (κ × α) :=
  l.filter (fun p => decide (p.1 ≠ k))

abbrev AccountId := String

/-- Content identity of a task: the four fields fed to `env::sha256` in
`Contract::hash` (`src/manager/src/tasks.rs`), in hashing order.  The host
hash is a trusted primitive, injective on these inputs, so the tuple
itself serves as the hash value. -/
structure TaskKey where
  contract_id : AccountId
  function_id : String
  cadence : String
  owner_id : AccountId
deriving DecidableEq

/-- `Task` from `src/manager/src/tasks.rs`. -/
structure Task where
  owner_id : AccountId
  contract_id : AccountId
  function_id : String
  cadence : String
  recurring : Bool
  total_deposit : Nat
  deposit : Nat
  gas : Nat
  arguments : List Nat
deriving DecidableEq

/-- `Agent` from `src/manager/src/agent.rs`. -/
structure Agent where
  payable_account_id : AccountId
  balance : Nat
  total_tasks_executed : Nat
deriving DecidableEq

/-- `Contract` state from `src/manager/src/lib.rs`.  `bps_block` and
`bps_timestamp` are the two-sample `[u64; 2]` arrays (`.1` is index 0,
`.2` is index 1, the sample the slot math reads).  The storage-accounting
and owner fields (`owner_id`, `available_balance`, `staked_balance`,
`proxy_callback_gas`, `agent_storage_usage`) are out of scope per spec
section 1 and are not read by any embedded operation. -/
structure State where
  paused : Bool
  bps_block : Nat × Nat
  bps_timestamp : Nat × Nat
  agents : List (AccountId × Agent)
  slots : List (Nat × List TaskKey)
  tasks : List (TaskKey × Task)
  agent_fee : Nat
  gas_price : Nat
  slot_granularity : Nat
deriving DecidableEq

/-- Host-ledger context plus the external cadence resolver. -/
structure Env where
  predecessor_account_id : AccountId
  signer_account_id : AccountId
  current_account_id : AccountId
  attached_deposit : Nat
  block_index : Nat
  block_timestamp : Nat
  parses : String → Bool
  next_after : String → Nat → Option Nat

/-- Outward-visible actions of one transaction: value transfers,
the outbound target call (`env::promise_create`), and the chained
self-callback (`env::promise_then`). -/
inductive Effect where
  | transfer (to_id : AccountId) (amount : Nat)
  | call (contract_id : AccountId) (function_id : String) (arguments : List Nat) (deposit : Nat) (gas : Nat)
  | callback (task_hash : TaskKey) (current_slot : Nat)
deriving DecidableEq

/-- `TreeMap::floor_key`: greatest stored key that is `≤ x`. -/
def floor_key (slots : List (Nat × List TaskKey)) (x : Nat) : Option Nat :=
  ((slots.map Prod.fst).filter (fun k => decide (k ≤ x))).max?

/-- `Contract::get_slot_id` (`src/manager/src/lib.rs` lines 124-149).
`o.saturating_sub r` is Nat truncated subtraction; the `u64` additions
carry `w64`, and `next - current_block` is wrapping subtraction. -/
def get_slot_id (st : State) (env : Env) (offset : Option Nat) : Nat :=
  let current_block := env.block_index
  let slot_id : Nat :=
    match offset with
    | some o =>
      let slot_remainder := max (o % st.slot_granularity) 1
      let slot_round := max (o - slot_remainder) st.slot_granularity
      let next := w64 (current_block + slot_round)
      if wsub next current_block > w64 (current_block + MAX_BLOCK_RANGE) then
        min next (w64 (current_block + MAX_BLOCK_RANGE))
      else
        next
    | none => current_block
  let slot_remainder := slot_id % st.slot_granularity
  slot_id - slot_remainder

/-- `Contract::get_slot_from_cadence` (`src/manager/src/lib.rs` lines
154-191).  `none` is a panic: unparseable cadence, exhausted schedule, or
division by zero.  `blocks_total * NANO * BPS_DENOMINATOR` wraps as `u64`
multiplication; the offset line is exact `u128` arithmetic truncated by
the final `as u64` cast. -/
def get_slot_from_cadence (st : State) (env : Env) (cadence : String) : Option Nat :=
  if env.parses cadence then
    match env.next_after cadence env.block_timestamp with
    | none => none
    | some next_ts =>
      let next_diff := wsub next_ts env.block_timestamp
      let blocks_total := max (wsub env.block_index st.bps_block.2) 1
      match checkedDiv (w64 (blocks_total * NANO * BPS_DENOMINATOR))
          (max (wsub env.block_timestamp st.bps_timestamp.2) 1) with
      | none => none
      | some q =>
        let bps := max q 1
        let offset := w64 (next_diff * bps / BPS_DENOMINATOR / NANO)
        let current := get_slot_id st env none
        let next_slot := get_slot_id st env (some offset)
        some (if current = next_slot then current + st.slot_granularity else next_slot)
  else none

/-- `Contract::task_balance_uses` (`src/manager/src/tasks.rs` lines
302-306): the base amount one execution uses. -/
def task_balance_uses (st : State) (task : Task) : Nat :=
  task.deposit + task.gas * st.gas_price + st.agent_fee

/-- `Contract::hash` (`src/manager/src/tasks.rs` lines 293-300): content
hash over (contract_id, function_id, cadence, owner_id). -/
def hash (item : Task) : TaskKey :=
  { contract_id := item.contract_id
    function_id := item.function_id
    cadence := item.cadence
    owner_id := item.owner_id }

/-- `Contract::validate_cadence` (`src/manager/src/tasks.rs` lines
308-316): `Schedule::from_str` succeeds. -/
def validate_cadence (env : Env) (cadence : String) : Bool :=
  env.parses cadence

/-- `Contract::create_task` (`src/manager/src/tasks.rs` lines 44-110).
The source inserts into `tasks` and then asserts the previous binding was
`none`; a failed assert aborts the transaction, which is equivalent to
checking for a previous binding before mutating. -/
def create_task (st : State) (env : Env) (contract_id : AccountId)
    (function_id : String) (cadence : String) (recurring : Option Bool)
    (deposit : Option Nat) (gas : Option Nat) (arguments : Option (List Nat)) :
    Except String (State × TaskKey) :=
  if st.paused then Except.error ("Create task paused")
  else if validate_cadence env cadence = false then Except.error ("Cadence string invalid")
  else
    let item : Task :=
      { owner_id := env.predecessor_account_id
        contract_id := contract_id
        function_id := function_id
        cadence := cadence
        recurring := recurring.getD false
        total_deposit := env.attached_deposit
        deposit := deposit.getD 0
        gas := gas.getD GAS_BASE_FEE
        arguments := arguments.getD [] }
    let call_balance_used := task_balance_uses st item
    let min_balance_needed : Nat :=
      if recurring = some true then call_balance_used * 2 else call_balance_used
    if min_balance_needed ≤ item.total_deposit then
      let h := hash item
      match get_slot_from_cadence st env item.cadence with
      | none => Except.error ("Cadence resolution trap")
      | some next_slot =>
        if (alist_get h st.tasks).isSome then Except.error ("Task already exists")
        else
          let st1 := { st with tasks := alist_insert h item st.tasks }
          let slot_slots := ((alist_get next_slot st1.slots).getD []) ++ [h]
          Except.ok ({ st1 with slots := alist_insert next_slot slot_slots st1.slots }, h)
    else Except.error ("Not enough task balance to execute job")

/-- `Contract::exit_task` (`src/manager/src/tasks.rs` lines 131-150).
Note the source guards on the bucket length before `retain`, so a bucket
emptied by `retain` is still written back. -/
def exit_task (st : State) (env : Env) (task_hash : TaskKey) :
    Except String (State × List Effect) :=
  match alist_get task_hash st.tasks with
  | none => Except.error ("No task found by hash")
  | some task =>
    let st1 := { st with tasks := alist_remove task_hash st.tasks }
    let effs : List Effect :=
      if 0 < task.total_deposit then [Effect.transfer task.owner_id task.total_deposit] else []
    match get_slot_from_cadence st1 env task.cadence with
    | none => Except.error ("Cadence resolution trap")
    | some next_slot =>
      let slot_tasks := (alist_get next_slot st1.slots).getD []
      if slot_tasks.length ≠ 0 then
        Except.ok
          ({ st1 with
              slots := alist_insert next_slot
                (slot_tasks.filter (fun h => decide (h ≠ task_hash))) st1.slots },
            effs)
      else Except.ok (st1, effs)

/-- `Contract::remove_task` (`src/manager/src/tasks.rs` lines 117-129). -/
def remove_task (st : State) (env : Env) (task_hash : TaskKey) :
    Except String (State × List Effect) :=
  match alist_get task_hash st.tasks with
  | none => Except.error ("No task found by hash")
  | some task =>
    if task.owner_id = env.predecessor_account_id then exit_task st env task_hash
    else Except.error ("Only owner can remove their task.")

/-- The bucket key `proxy_call` serves: the floor key of the slot index at
the current slot, falling back to the current slot itself (the source
pairs this key with `slots.get` of the same key in both branches). -/
def slot_ballpark (st : State) (current_slot : Nat) : Nat :=
  match floor_key st.slots current_slot with
  | some k => k
  | none => current_slot

/-- `Contract::proxy_call` (`src/manager/src/tasks.rs` lines 162-265).
Registration is checked under `predecessor_account_id` (line 167) while
the credited record is written under `signer_account_id` (line 230),
exactly as in the source.  `Vec::pop` takes the last-appended entry. -/
def proxy_call (st : State) (env : Env) : Except String (State × List Effect) :=
  if st.paused then Except.error ("Task execution paused")
  else
    match alist_get env.predecessor_account_id st.agents with
    | none => Except.error ("Agent not registered")
    | some agent =>
      let current_slot := get_slot_id st env none
      let bp := slot_ballpark st current_slot
      match alist_get bp st.slots with
      | none => Except.error ("No tasks found in slot")
      | some slot_data =>
        match slot_data.getLast? with
        | none => Except.error ("No tasks available")
        | some h =>
          let remaining := slot_data.dropLast
          let st1 :=
            if remaining.isEmpty then { st with slots := alist_remove bp st.slots }
            else { st with slots := alist_insert bp remaining st.slots }
          match alist_get h st1.tasks with
          | none => Except.error ("No task found by hash")
          | some task =>
            let call_fee_used := task.gas * st1.gas_price
            let call_total_fee := call_fee_used + st1.agent_fee
            let call_total_balance := task.deposit + call_total_fee
            if task.total_deposit < call_total_balance then
              exit_task st1 env h
            else
              let agent1 : Agent :=
                { agent with
                    balance := agent.balance + call_total_fee
                    total_tasks_executed := agent.total_tasks_executed + 1 }
              let st2 := { st1 with agents := alist_insert env.signer_account_id agent1 st1.agents }
              let task1 : Task := { task with total_deposit := task.total_deposit - call_total_balance }
              let st3 := { st2 with tasks := alist_insert h task1 st2.tasks }
              let call_eff := Effect.call task1.contract_id task1.function_id task1.arguments task1.deposit task1.gas
              if task1.recurring = false ∨ task1.total_deposit < call_total_balance then
                match exit_task st3 env h with
                | Except.error e => Except.error e
                | Except.ok (st4, effs) => Except.ok (st4, call_eff :: effs)
              else
                Except.ok (st3, [call_eff, Effect.callback h current_slot])

/-- `Contract::callback_for_proxy_call` (`src/manager/src/tasks.rs` lines
267-288).  The `#[private]` attribute makes the host reject callers other
than the contract itself. -/
def callback_for_proxy_call (st : State) (env : Env) (task_hash : TaskKey)
    (current_slot : Nat) : Except String State :=
  if env.predecessor_account_id ≠ env.current_account_id then
    Except.error ("Method is private")
  else
    match alist_get task_hash st.tasks with
    | none => Except.error ("No task found by hash")
    | some task =>
      match get_slot_from_cadence st env task.cadence with
      | none => Except.error ("Cadence resolution trap")
      | some next_slot =>
        if current_slot < next_slot then
          let slot_tasks := ((alist_get next_slot st.slots).getD []) ++ [task_hash]
          Except.ok { st with slots := alist_insert next_slot slot_tasks st.slots }
        else Except.error ("Cannot schedule task in the past")

/-- The slot-index invariant of spec section 3: no persisted bucket is
empty. -/
def no_empty_buckets (st : State) : Prop :=
  ∀ p ∈ st.slots, p.2 ≠ ([] : List TaskKey)

/-! Concrete fixtures used by witnesses and counterexamples.  With
`slot_granularity = 60`, `block_index = 120`, `block_timestamp = 1000`,
`bps_block = (0, 100)` and `bps_timestamp = (0, 0)`, the estimator gives
`blocks_total = 20`, `bps = 20000000000`, and a resolver answering
`ts + 1000` yields offset `20`, hence `get_slot_id` resolves the cadence
to slot `180` while the current slot is `120`. -/

def agentFix : Agent :=
  { payable_account_id := "agent", balance := 50, total_tasks_executed := 0 }

def keyFix : TaskKey :=
  { contract_id := "ctr", function_id := "f", cadence := "c", owner_id := "bob" }

def taskFix : Task :=
  { owner_id := "bob", contract_id := "ctr", function_id := "f", cadence := "c"
    recurring := false, total_deposit := 100, deposit := 10, gas := 2, arguments := [] }

def stFix : State :=
  { paused := false
    bps_block := (0, 100)
    bps_timestamp := (0, 0)
    agents := [("agent", agentFix)]
    slots := [(120, [keyFix])]
    tasks := [(keyFix, taskFix)]
    agent_fee := 5
    gas_price := 1
    slot_granularity := 60 }

def envFix : Env :=
  { predecessor_account_id := "agent"
    signer_account_id := "user"
    current_account_id := "cron"
    attached_deposit := 0
    block_index := 120
    block_timestamp := 1000
    parses := fun _ => true
    next_after := fun _ ts => some (ts + 1000) }

/-- C1 fixture: a registered executor "agent" is the predecessor, but the
transaction was signed by a different account "user". -/
def stSigner : State :=
  { stFix with tasks := [(keyFix, { taskFix with recurring := true })] }

/-- C2 fixture: the queued task holds 5 yocto, below the 17 one call
costs. -/
def stUnder : State :=
  { stFix with tasks := [(keyFix, { taskFix with total_deposit := 5 })] }

/-- C3 fixture: a funded recurring task. -/
def stRec : State :=
  { stFix with tasks := [(keyFix, { taskFix with recurring := true })] }

/-- Environment for the self-callback (the contract calls itself). -/
def envSelf : Env :=
  { envFix with predecessor_account_id := "cron", signer_account_id := "cron" }

/-- C4 fixture: a chain whose height is twice `MAX_BLOCK_RANGE`. -/
def envHigh : Env :=
  { envFix with block_index := 2000000000000000 }

/-- C5 fixture: the task's bucket (slot 180, where its cadence resolves)
holds only its own hash. -/
def stLone : State :=
  { stFix with slots := [(180, [keyFix])], agents := [] }

/-- Owner-initiated environment for `remove_task`. -/
def envOwner : Env :=
  { envFix with predecessor_account_id := "bob", signer_account_id := "bob" }

/-- C6 fixture: a reversed clock — the stored newest block-rate samples
exceed the current block height and wall time. -/
def stReversed : State :=
  { stFix with bps_block := (0, 1000000000), bps_timestamp := (0, 100000000000000000000) }

/-- C7/C8 fixture: an empty catalog. -/
def stEmptyCat : State :=
  { stFix with tasks := [], slots := [] }

/-- First-creation environment for C8 (owner "bob"). -/
def envCreate : Env :=
  { envFix with predecessor_account_id := "bob", signer_account_id := "bob"
                attached_deposit := 1000 }

/-- The state after the first C8 creation succeeds. -/
def stAfterCreate : State :=
  ((create_task stEmptyCat envCreate "ctr" "f" "c" (some false) (some 10) (some 2)
      none).toOption.getD (stEmptyCat, keyFix)).1

/-- Second-creation environment for C8: same owner, different deposit. -/
def envCreate2 : Env :=
  { envCreate with attached_deposit := 500 }

/-- The state after the C5 counterexample run of `remove_task`. -/
def stLoneOut : State :=
  { stFix with agents := [], slots := [(180, [])], tasks := [] }

/-- The state left by a successful fixture callback (C5 witness). -/
def stCbOut : State :=
  (callback_for_proxy_call stRec envSelf keyFix 120).toOption.getD stRec

/-- The state left by a successful funded recurring fixture execution
(C5 witness). -/
def stRecOut : State :=
  ((proxy_call stRec envFix).toOption.getD (stRec, [])).1

/-! Supporting lemmas (shared across claims). -/

theorem alist_get_insert_self {κ α : Type} [DecidableEq κ] (k : κ) (v : α) (l : List (κ × α)) :
    alist_get k (alist_insert k v l) = some v := by
  simp [alist_get, alist_insert]

theorem alist_get_remove_self {κ α : Type} [DecidableEq κ] (k : κ) (l : List (κ × α)) :
    alist_get k (alist_remove k l) = none := by
  induction l with
  | nil => rfl
  | cons p l ih =>
    by_cases h : p.1 = k
    · simpa [alist_remove, List.filter_cons, h] using ih
    · simpa [alist_remove, List.filter_cons, h, alist_get] using ih

theorem get_slot_id_state_maps (st : State) (env : Env) (off : Option Nat)
    (ag : List (AccountId × Agent)) (sl : List (Nat × List TaskKey))
    (tk : List (TaskKey × Task)) :
    get_slot_id { st with agents := ag, slots := sl, tasks := tk } env off =
      get_slot_id st env off := rfl

theorem get_slot_from_cadence_state_maps (st : State) (env : Env) (c : String)
    (ag : List (AccountId × Agent)) (sl : List (Nat × List TaskKey))
    (tk : List (TaskKey × Task)) :
    get_slot_from_cadence { st with agents := ag, slots := sl, tasks := tk } env c =
      get_slot_from_cadence st env c := rfl

theorem get_slot_from_cadence_env_deposit (st : State) (env : Env) (c : String) (d : Nat) :
    get_slot_from_cadence st { env with attached_deposit := d } c =
      get_slot_from_cadence st env c := rfl

theorem w64_eq_of_lt {x : Nat} (h : x < U64SIZE) : w64 x = x := Nat.mod_eq_of_lt h

theorem wsub_eq_sub {a b : Nat} (hba : b ≤ a) (h : a - b < U64SIZE) : wsub a b = a - b := by
  unfold wsub
  have hx : a + U64SIZE - b = (a - b) + U64SIZE := by omega
  rw [hx, Nat.add_mod_right]
  exact Nat.mod_eq_of_lt h

theorem round_down_mod (a g : Nat) : (a - a % g) % g = 0 := by
  have h := Nat.div_add_mod a g
  have hx : a - a % g = g * (a / g) := by omega
  rw [hx]
  exact Nat.mul_mod_right g _

theorem round_down_mono {a b : Nat} (g : Nat) (h : a ≤ b) : a - a % g ≤ b - b % g := by
  have ha := Nat.div_add_mod a g
  have hb := Nat.div_add_mod b g
  have hxa : a - a % g = g * (a / g) := by omega
  have hxb : b - b % g = g * (b / g) := by omega
  rw [hxa, hxb]
  exact Nat.mul_le_mul_left g (Nat.div_le_div_right h)

theorem round_down_add_self (b g : Nat) : (b + g) - (b + g) % g = (b - b % g) + g := by
  have h1 : (b + g) % g = b % g := Nat.add_mod_right b g
  have h2 : b % g ≤ b := Nat.mod_le b g
  omega

/-- Core arithmetic of the offset branch of `get_slot_id`: in the absence
of `u64` overflow the rounded offset slot is at least one granularity
beyond the rounded current block. -/
theorem slot_round_progress (g b o : Nat) (hg1 : 1 ≤ g) (hg2 : g ≤ MAX_BLOCK_RANGE)
    (hov1 : b + max o g < U64SIZE) (hov2 : b + MAX_BLOCK_RANGE < U64SIZE)
    (raw : Nat)
    (hraw : raw =
      if wsub (w64 (b + max (o - max (o % g) 1) g)) b > w64 (b + MAX_BLOCK_RANGE)
      then min (w64 (b + max (o - max (o % g) 1) g)) (w64 (b + MAX_BLOCK_RANGE))
      else w64 (b + max (o - max (o % g) 1) g)) :
    (b - b % g) + g ≤ raw - raw % g := by
  subst hraw
  have hsrg : g ≤ max (o - max (o % g) 1) g := le_max_right _ _
  have hsro : max (o - max (o % g) 1) g ≤ max o g :=
    max_le (le_trans (Nat.sub_le _ _) (le_max_left _ _)) (le_max_right _ _)
  have hbsr : b + max (o - max (o % g) 1) g < U64SIZE := by omega
  have hnext : w64 (b + max (o - max (o % g) 1) g) = b + max (o - max (o % g) 1) g :=
    w64_eq_of_lt hbsr
  have hmaxr : w64 (b + MAX_BLOCK_RANGE) = b + MAX_BLOCK_RANGE := w64_eq_of_lt hov2
  rw [hnext, hmaxr]
  have hws : wsub (b + max (o - max (o % g) 1) g) b = max (o - max (o % g) 1) g := by
    rw [wsub_eq_sub (Nat.le_add_right _ _) (by omega)]
    omega
  rw [hws]
  by_cases hbr : max (o - max (o % g) 1) g > b + MAX_BLOCK_RANGE
  · rw [if_pos hbr]
    have hmin : min (b + max (o - max (o % g) 1) g) (b + MAX_BLOCK_RANGE) =
        b + MAX_BLOCK_RANGE := min_eq_right (by omega)
    rw [hmin]
    calc (b - b % g) + g = (b + g) - (b + g) % g := (round_down_add_self b g).symm
      _ ≤ (b + MAX_BLOCK_RANGE) - (b + MAX_BLOCK_RANGE) % g := round_down_mono g (by omega)
  · rw [if_neg hbr]
    calc (b - b % g) + g = (b + g) - (b + g) % g := (round_down_add_self b g).symm
      _ ≤ (b + max (o - max (o % g) 1) g) - (b + max (o - max (o % g) 1) g) % g :=
        round_down_mono g (by omega)

/-- C1: the claim that the execution fee is credited to the executor whose
registration was checked at entry fails on the code.  `proxy_call` checks
registration under `predecessor_account_id` but writes the credited,
incremented record under `signer_account_id`: on a funded execution where
the registered predecessor "agent" differs from the signer "user", the
checked executor's ledger entry is left untouched (balance 50, counter 0)
and the updated record (balance 57, counter 1) is stored under "user". -/
theorem proxy_call_fee_credit_misdirected_to_signer :
    (proxy_call stSigner envFix).toOption.map
        (fun out => (alist_get "agent" out.1.agents, alist_get "user" out.1.agents)) =
      some (some { payable_account_id := "agent", balance := 50, total_tasks_executed := 0 },
            some { payable_account_id := "agent", balance := 57, total_tasks_executed := 1 }) := by
  decide

/-- C4: the claim's bound fails on the code.  At block height
`b = 2 * 10^15` with granularity 60 and offset `o = 2 * 10^15`, the
clamp in `get_slot_id` compares the offset delta against
`b + MAX_BLOCK_RANGE` instead of the candidate block, so the returned
slot `3999999999999960` exceeds `b + MAX_BLOCK_RANGE = 3 * 10^15`. -/
theorem get_slot_id_exceeds_block_range_bound :
    get_slot_id stFix envHigh (some 2000000000000000) = 3999999999999960 ∧
      envHigh.block_index + MAX_BLOCK_RANGE < 3999999999999960 := by
  decide

/-- C5 counterexample: `remove_task` (a public operation) persists an
empty bucket.  The removed task is the only entry of the bucket its
cadence re-resolves to (slot 180); `exit_task` checks the length before
`retain` and then writes the emptied collection back. -/
theorem remove_task_persists_empty_bucket :
    remove_task stLone envOwner keyFix =
        Except.ok (stLoneOut, [Effect.transfer "bob" 100]) ∧
      alist_get 180 stLoneOut.slots = some ([] : List TaskKey) ∧
      ¬ no_empty_buckets stLoneOut := by
  refine ⟨rfl, rfl, ?_⟩
  intro hinv
  exact hinv (180, ([] : List TaskKey)) (by decide) rfl

/-- C6: with a parseable cadence whose schedule has a next occurrence,
`get_slot_from_cadence` completes for every stored block-rate sample
state — both deltas feeding the blocks-per-time ratio are clamped to a
minimum of 1, so the division cannot trap, even when the stored newest
block height or timestamp equals or exceeds the current one. -/
theorem get_slot_from_cadence_never_divides_by_zero
    (st : State) (env : Env) (cadence : String) (n : Nat)
    (hp : env.parses cadence = true)
    (hn : env.next_after cadence env.block_timestamp = some n) :
    (get_slot_from_cadence st env cadence).isSome = true := by
  have hz : (max (wsub env.block_timestamp st.bps_timestamp.2) 1) ≠ 0 := by
    simp [Nat.max_eq_zero_iff]
  simp [get_slot_from_cadence, hp, hn, checkedDiv, hz]

/-- C6 witness: a reversed clock — both stored newest samples exceed the
current block height and wall time — still completes. -/
theorem get_slot_from_cadence_never_divides_by_zero_witness :
    (get_slot_from_cadence stReversed envFix "c").isSome = true :=
  get_slot_from_cadence_never_divides_by_zero stReversed envFix "c" 2000 rfl rfl

/-- C9: the slot resolved from a parseable cadence is never the current
slot: when the candidate equals the current slot the code returns
`current + granularity` instead. -/
theorem slot_from_cadence_never_current_slot
    (st : State) (env : Env) (cadence : String) (n r : Nat)
    (hp : env.parses cadence = true)
    (hn : env.next_after cadence env.block_timestamp = some n)
    (hg : 1 ≤ st.slot_granularity)
    (hr : get_slot_from_cadence st env cadence = some r) :
    r ≠ get_slot_id st env none := by
  have hz : (max (wsub env.block_timestamp st.bps_timestamp.2) 1) ≠ 0 := by
    simp [Nat.max_eq_zero_iff]
  simp only [get_slot_from_cadence, hp, if_true, hn, checkedDiv, if_neg hz,
    Option.some.injEq] at hr
  split at hr
  case isTrue he =>
    rw [← hr]
    intro hc
    omega
  case isFalse he =>
    rw [← hr]
    intro hc
    exact he hc.symm

/-- C9 witness: on the fixture the cadence resolves to slot 180 while the
current slot is 120. -/
theorem slot_from_cadence_never_current_slot_witness :
    (180 : Nat) ≠ get_slot_id stFix envFix none :=
  slot_from_cadence_never_current_slot stFix envFix "c" 2000 180 rfl rfl
    (by decide) (by decide)

/-- C10: strict forward progress of offset scheduling.  For every state
and block height, granularity between 1 and `MAX_BLOCK_RANGE`, and every
offset (including 0), absent `u64` overflow the offset slot is at least
one full granularity beyond the current slot. -/
theorem offset_slot_strictly_advances_by_granularity
    (st : State) (env : Env) (o : Nat)
    (hg1 : 1 ≤ st.slot_granularity)
    (hg2 : st.slot_granularity ≤ MAX_BLOCK_RANGE)
    (hov1 : env.block_index + max o st.slot_granularity < U64SIZE)
    (hov2 : env.block_index + MAX_BLOCK_RANGE < U64SIZE) :
    get_slot_id st env none + st.slot_granularity ≤ get_slot_id st env (some o) :=
  slot_round_progress st.slot_granularity env.block_index o hg1 hg2 hov1 hov2 _ rfl

/-- C10 witness: with granularity 60, block height 120 and offset 0 the
current slot is 120 and the offset slot is 180. -/
theorem offset_slot_strictly_advances_by_granularity_witness :
    get_slot_id stFix envFix none + stFix.slot_granularity ≤
      get_slot_id stFix envFix (some 0) :=
  offset_slot_strictly_advances_by_granularity stFix envFix 0 (by decide) (by decide)
    (by decide) (by decide)

/-- C2: an execution attempt that pops a task whose remaining budget is
strictly below `total_cost` terminates the task: the result is a
successful transaction whose only effect is the refund of the exact
pre-execution remaining budget to the owner (no outbound call), the
catalog entry is gone, and the executor ledger is untouched. -/
theorem proxy_call_underfunded_task_exits_with_refund
    (st : State) (env : Env) (agent : Agent) (slot_data : List TaskKey)
    (h : TaskKey) (task : Task) (ns : Nat)
    (hpause : st.paused = false)
    (hagent : alist_get env.predecessor_account_id st.agents = some agent)
    (hslot : alist_get (slot_ballpark st (get_slot_id st env none)) st.slots = some slot_data)
    (hpop : slot_data.getLast? = some h)
    (htask : alist_get h st.tasks = some task)
    (hunder : task.total_deposit < task.deposit + (task.gas * st.gas_price + st.agent_fee))
    (hres : get_slot_from_cadence st env task.cadence = some ns) :
    (proxy_call st env).toOption.map
        (fun out => (alist_get h out.1.tasks, out.1.agents, out.2)) =
      some (none, st.agents,
        if 0 < task.total_deposit then [Effect.transfer task.owner_id task.total_deposit]
        else []) := by
  simp only [proxy_call, hpause, Bool.false_eq_true, if_false, hagent, hslot, hpop, exit_task]
  by_cases hrem : slot_data.dropLast.isEmpty = true
  · rw [if_pos hrem]
    simp only [htask]
    rw [if_pos hunder]
    split
    next heq =>
      exact absurd (show get_slot_from_cadence st env task.cadence = none from heq)
        (by rw [hres]; simp)
    next nsv heq =>
      have heq2 : get_slot_from_cadence st env task.cadence = some nsv := heq
      rw [hres] at heq2
      obtain rfl : ns = nsv := Option.some.inj heq2
      split
      · simp [alist_get_remove_self, Except.toOption]
      · simp [alist_get_remove_self, Except.toOption]
  · rw [if_neg hrem]
    simp only [htask]
    rw [if_pos hunder]
    split
    next heq =>
      exact absurd (show get_slot_from_cadence st env task.cadence = none from heq)
        (by rw [hres]; simp)
    next nsv heq =>
      have heq2 : get_slot_from_cadence st env task.cadence = some nsv := heq
      rw [hres] at heq2
      obtain rfl : ns = nsv := Option.some.inj heq2
      split
      · simp [alist_get_remove_self, Except.toOption]
      · simp [alist_get_remove_self, Except.toOption]

/-- C2 witness: the fixture task holding 5 against a call cost of 17 is
exited with a refund of exactly 5 and no fee credit. -/
theorem proxy_call_underfunded_task_exits_with_refund_witness :
    (proxy_call stUnder envFix).toOption.map
        (fun out => (alist_get keyFix out.1.tasks, out.1.agents, out.2)) =
      some (none, stUnder.agents, [Effect.transfer "bob" 5]) := by
  have := proxy_call_underfunded_task_exits_with_refund stUnder envFix agentFix [keyFix]
    keyFix { taskFix with total_deposit := 5 } 180 rfl (by decide) (by decide) rfl
    (by decide) (by decide) (by decide)
  simpa [taskFix] using this

/-- The funded recurring execution path of `proxy_call`, characterised
exactly: the popped bucket is trimmed or deleted, the loaded agent record
is credited and written under the signer key, the task is debited by one
call cost and kept, and the transaction issues the outbound call followed
by the reschedule callback carrying the served slot. -/
theorem proxy_call_recurring_spec
    (st : State) (env : Env) (agent : Agent) (slot_data : List TaskKey)
    (h : TaskKey) (task : Task)
    (hpause : st.paused = false)
    (hagent : alist_get env.predecessor_account_id st.agents = some agent)
    (hslot : alist_get (slot_ballpark st (get_slot_id st env none)) st.slots = some slot_data)
    (hpop : slot_data.getLast? = some h)
    (htask : alist_get h st.tasks = some task)
    (hrec : task.recurring = true)
    (hfund : 2 * (task.deposit + (task.gas * st.gas_price + st.agent_fee)) ≤ task.total_deposit) :
    proxy_call st env = Except.ok
      ({ st with
          agents := alist_insert env.signer_account_id
            { agent with
                balance := agent.balance + (task.gas * st.gas_price + st.agent_fee)
                total_tasks_executed := agent.total_tasks_executed + 1 } st.agents
          slots :=
            if slot_data.dropLast.isEmpty then
              alist_remove (slot_ballpark st (get_slot_id st env none)) st.slots
            else
              alist_insert (slot_ballpark st (get_slot_id st env none)) slot_data.dropLast st.slots
          tasks := alist_insert h
            { task with
                total_deposit :=
                  task.total_deposit -
                    (task.deposit + (task.gas * st.gas_price + st.agent_fee)) } st.tasks },
        [Effect.call task.contract_id task.function_id task.arguments task.deposit task.gas,
         Effect.callback h (get_slot_id st env none)]) := by
  have hnot : ¬ (task.total_deposit < task.deposit + (task.gas * st.gas_price + st.agent_fee)) := by
    omega
  have hnot2 : ¬ (task.recurring = false ∨
      task.total_deposit - (task.deposit + (task.gas * st.gas_price + st.agent_fee)) <
        task.deposit + (task.gas * st.gas_price + st.agent_fee)) := by
    rw [hrec]
    push_neg
    refine ⟨by simp, by omega⟩
  simp only [proxy_call, hpause, Bool.false_eq_true, if_false, hagent, hslot, hpop]
  by_cases hrem : slot_data.dropLast.isEmpty = true
  · rw [if_pos hrem]
    simp only [htask]
    rw [if_neg hnot, if_neg hnot2]
    simp [hrem]
  · rw [if_neg hrem]
    simp only [htask]
    rw [if_neg hnot, if_neg hnot2]
    simp [hrem]

/-- C3: executing a fully-funded recurring task keeps it in the catalog
with a strictly smaller remaining budget and chains the reschedule
callback carrying the served slot (first part); the continuation inserts
the task into the re-resolved slot only when that slot is strictly
greater than the served slot, and fails fatally otherwise (second
part). -/
theorem recurring_funded_execution_stays_and_reschedules_forward :
    (∀ (st : State) (env : Env) (agent : Agent) (slot_data : List TaskKey)
        (h : TaskKey) (task : Task),
      st.paused = false →
      alist_get env.predecessor_account_id st.agents = some agent →
      alist_get (slot_ballpark st (get_slot_id st env none)) st.slots = some slot_data →
      slot_data.getLast? = some h →
      alist_get h st.tasks = some task →
      task.recurring = true →
      0 < st.agent_fee →
      2 * (task.deposit + (task.gas * st.gas_price + st.agent_fee)) ≤ task.total_deposit →
      (proxy_call st env).toOption.map (fun out => (alist_get h out.1.tasks, out.2)) =
          some (some { task with
              total_deposit := task.total_deposit -
                (task.deposit + (task.gas * st.gas_price + st.agent_fee)) },
            [Effect.call task.contract_id task.function_id task.arguments task.deposit task.gas,
             Effect.callback h (get_slot_id st env none)]) ∧
        task.total_deposit - (task.deposit + (task.gas * st.gas_price + st.agent_fee)) <
          task.total_deposit) ∧
    (∀ (st : State) (env : Env) (h : TaskKey) (task : Task) (cs ns : Nat),
      env.predecessor_account_id = env.current_account_id →
      alist_get h st.tasks = some task →
      get_slot_from_cadence st env task.cadence = some ns →
      (cs < ns →
        (callback_for_proxy_call st env h cs).toOption.map
            (fun st2 => decide (h ∈ (alist_get ns st2.slots).getD [])) = some true) ∧
      (ns ≤ cs →
        callback_for_proxy_call st env h cs =
          Except.error ("Cannot schedule task in the past"))) := by
  constructor
  · intro st env agent slot_data h task hpause hagent hslot hpop htask hrec hfee hfund
    rw [proxy_call_recurring_spec st env agent slot_data h task hpause hagent hslot hpop
      htask hrec hfund]
    refine ⟨by simp [Except.toOption, alist_get_insert_self], by omega⟩
  · intro st env h task cs ns hpriv htask hres
    have hp2 : ¬ (env.predecessor_account_id ≠ env.current_account_id) := by
      simp [hpriv]
    constructor
    · intro hcs
      simp only [callback_for_proxy_call, if_neg hp2, htask, hres]
      rw [if_pos hcs]
      simp [Except.toOption, alist_get_insert_self]
    · intro hcs
      simp only [callback_for_proxy_call, if_neg hp2, htask, hres]
      rw [if_neg (by omega : ¬ cs < ns)]

/-- C3 witness: the fixture's funded recurring task is kept with budget
83 and rescheduled from slot 120 into slot 180; scheduling at or before
the served slot (200 against 180) fails fatally. -/
theorem recurring_funded_execution_stays_and_reschedules_forward_witness :
    (proxy_call stRec envFix).toOption.map
        (fun out => (alist_get keyFix out.1.tasks, out.2)) =
      some (some { taskFix with recurring := true, total_deposit := 83 },
        [Effect.call "ctr" "f" [] 10 2, Effect.callback keyFix 120]) ∧
    (callback_for_proxy_call stRec envSelf keyFix 120).toOption.map
        (fun st2 => decide (keyFix ∈ (alist_get 180 st2.slots).getD [])) = some true ∧
    callback_for_proxy_call stRec envSelf keyFix 200 =
      Except.error ("Cannot schedule task in the past") := by
  refine ⟨?_, ?_, ?_⟩
  · have := (recurring_funded_execution_stays_and_reschedules_forward.1 stRec envFix agentFix
      [keyFix] keyFix { taskFix with recurring := true } rfl (by decide) (by decide) rfl
      (by decide) rfl (by decide) (by decide)).1
    simpa [taskFix] using this
  · exact (recurring_funded_execution_stays_and_reschedules_forward.2 stRec envSelf keyFix
      { taskFix with recurring := true } 120 180 rfl (by decide) (by decide)).1 (by decide)
  · exact (recurring_funded_execution_stays_and_reschedules_forward.2 stRec envSelf keyFix
      { taskFix with recurring := true } 200 180 rfl (by decide) (by decide)).2 (by decide)

theorem mem_alist_insert {κ α : Type} [DecidableEq κ] {p : κ × α} {k : κ} {v : α}
    {l : List (κ × α)} (hp : p ∈ alist_insert k v l) : p = (k, v) ∨ p ∈ l := by
  rcases List.mem_cons.mp hp with hh | hh
  · exact Or.inl hh
  · exact Or.inr (List.mem_of_mem_filter hh)

theorem mem_alist_remove {κ α : Type} [DecidableEq κ] {p : κ × α} {k : κ}
    {l : List (κ × α)} (hp : p ∈ alist_remove k l) : p ∈ l :=
  List.mem_of_mem_filter hp

/-- Inversion of a successful `create_task`: the checks passed, the key
is the content tuple, and the new state appends the key to the resolved
bucket and stores the record. -/
theorem create_task_ok_inv
    (st : State) (env : Env) (cid : AccountId) (fid cad : String)
    (r : Option Bool) (d g : Option Nat) (a : Option (List Nat))
    (st1 : State) (k : TaskKey)
    (heq : create_task st env cid fid cad r d g a = Except.ok (st1, k)) :
    st.paused = false ∧ env.parses cad = true ∧
    k = { contract_id := cid, function_id := fid, cadence := cad,
          owner_id := env.predecessor_account_id } ∧
    ∃ ns, get_slot_from_cadence st env cad = some ns ∧
      alist_get k st.tasks = none ∧
      st1 = { st with
        tasks := alist_insert k
          { owner_id := env.predecessor_account_id, contract_id := cid, function_id := fid
            cadence := cad, recurring := r.getD false, total_deposit := env.attached_deposit
            deposit := d.getD 0, gas := g.getD GAS_BASE_FEE, arguments := a.getD [] }
          st.tasks
        slots := alist_insert ns (((alist_get ns st.slots).getD []) ++ [k]) st.slots } := by
  unfold create_task at heq
  by_cases h1 : st.paused = true
  · rw [if_pos h1] at heq
    exact absurd heq (by simp)
  rw [if_neg h1] at heq
  by_cases h2 : validate_cadence env cad = false
  · rw [if_pos h2] at heq
    exact absurd heq (by simp)
  rw [if_neg h2] at heq
  dsimp only [] at heq
  refine ⟨by simpa using h1, by simpa [validate_cadence] using h2, ?_⟩
  by_cases hb : r = some true
  · rw [if_pos hb] at heq
    split at heq
    · split at heq
      · exact absurd heq (by simp)
      next ns hns =>
        split at heq
        · exact absurd heq (by simp)
        next hdup =>
          injection heq with hpair
          rw [Prod.mk.injEq] at hpair
          obtain ⟨hS, hK⟩ := hpair
          subst hK
          exact ⟨rfl, ns, hns, by simpa using hdup, hS.symm⟩
    · exact absurd heq (by simp)
  · rw [if_neg hb] at heq
    split at heq
    · split at heq
      · exact absurd heq (by simp)
      next ns hns =>
        split at heq
        · exact absurd heq (by simp)
        next hdup =>
          injection heq with hpair
          rw [Prod.mk.injEq] at hpair
          obtain ⟨hS, hK⟩ := hpair
          subst hK
          exact ⟨rfl, ns, hns, by simpa using hdup, hS.symm⟩
    · exact absurd heq (by simp)

/-- C5 amended: the bucket invariant holds on every path except the
`exit_task` write-back.  `create_task` and `callback_for_proxy_call`
preserve it (they append to a bucket), and so does a funded recurring
`proxy_call` (its pop deletes a bucket it empties); the counterexample
shows `exit_task` breaking it. -/
theorem no_empty_bucket_outside_exit_paths :
    (∀ (st : State) (env : Env) (cid : AccountId) (fid cad : String)
        (r : Option Bool) (d g : Option Nat) (a : Option (List Nat))
        (st1 : State) (k : TaskKey),
      create_task st env cid fid cad r d g a = Except.ok (st1, k) →
      no_empty_buckets st → no_empty_buckets st1) ∧
    (∀ (st : State) (env : Env) (h : TaskKey) (cs : Nat) (st1 : State),
      callback_for_proxy_call st env h cs = Except.ok st1 →
      no_empty_buckets st → no_empty_buckets st1) ∧
    (∀ (st : State) (env : Env) (agent : Agent) (slot_data : List TaskKey)
        (h : TaskKey) (task : Task) (st1 : State) (effs : List Effect),
      st.paused = false →
      alist_get env.predecessor_account_id st.agents = some agent →
      alist_get (slot_ballpark st (get_slot_id st env none)) st.slots = some slot_data →
      slot_data.getLast? = some h →
      alist_get h st.tasks = some task →
      task.recurring = true →
      2 * (task.deposit + (task.gas * st.gas_price + st.agent_fee)) ≤ task.total_deposit →
      proxy_call st env = Except.ok (st1, effs) →
      no_empty_buckets st → no_empty_buckets st1) := by
  refine ⟨?_, ?_, ?_⟩
  · intro st env cid fid cad r d g a st1 k heq hinv
    obtain ⟨-, -, -, ns, -, -, hst1⟩ := create_task_ok_inv st env cid fid cad r d g a st1 k heq
    subst hst1
    intro p hp
    rcases mem_alist_insert hp with hh | hh
    · subst hh
      simp
    · exact hinv p hh
  · intro st env h cs st1 heq hinv
    unfold callback_for_proxy_call at heq
    split at heq
    · exact absurd heq (by simp)
    · split at heq
      · exact absurd heq (by simp)
      · split at heq
        · exact absurd heq (by simp)
        · split at heq
          · injection heq with hS
            subst hS
            intro p hp
            rcases mem_alist_insert hp with hh | hh
            · subst hh
              simp
            · exact hinv p hh
          · exact absurd heq (by simp)
  · intro st env agent slot_data h task st1 effs hpause hagent hslot hpop htask hrec hfund
      heq hinv
    rw [proxy_call_recurring_spec st env agent slot_data h task hpause hagent hslot hpop
      htask hrec hfund] at heq
    injection heq with hpair
    rw [Prod.mk.injEq] at hpair
    obtain ⟨hS, _⟩ := hpair
    subst hS
    by_cases hrem : slot_data.dropLast.isEmpty = true
    · rw [if_pos hrem]
      intro p hp
      exact hinv p (mem_alist_remove hp)
    · rw [if_neg hrem]
      intro p hp
      rcases mem_alist_insert hp with hh | hh
      · subst hh
        rcases e : slot_data.dropLast with _ | ⟨x, xs⟩
        · rw [e] at hrem
          simp at hrem
        · simp
      · exact hinv p hh

/-- C5 amended witness: the fixture creation, callback, and funded
recurring execution all leave every stored bucket non-empty. -/
theorem no_empty_bucket_outside_exit_paths_witness :
    no_empty_buckets stAfterCreate ∧ no_empty_buckets stCbOut ∧ no_empty_buckets stRecOut := by
  refine ⟨?_, ?_, ?_⟩
  · exact no_empty_bucket_outside_exit_paths.1 stEmptyCat envCreate "ctr" "f" "c"
      (some false) (some 10) (some 2) none stAfterCreate keyFix rfl
      (fun p hp => absurd hp (by simp [stEmptyCat, stFix]))
  · exact no_empty_bucket_outside_exit_paths.2.1 stRec envSelf keyFix 120 stCbOut rfl
      (by intro p hp
          simp only [stRec, stFix] at hp
          rcases List.mem_singleton.mp hp with rfl
          simp)
  · exact no_empty_bucket_outside_exit_paths.2.2 stRec envFix agentFix [keyFix] keyFix
      { taskFix with recurring := true } stRecOut
      [Effect.call "ctr" "f" [] 10 2, Effect.callback keyFix 120]
      rfl (by decide) (by decide) rfl (by decide) rfl (by decide) rfl
      (by intro p hp
          simp only [stRec, stFix] at hp
          rcases List.mem_singleton.mp hp with rfl
          simp)

/-- C7: with the other creation preconditions in place (not paused,
parseable cadence, fresh tuple, the initialized positive flat fee), a
prepaid deposit exactly equal to the required minimum — one call cost,
doubled for a recurring task — succeeds, and one yocto less fails with
the underfunded-budget error; `recurring` ranges over both cases. -/
theorem create_task_minimum_budget_boundary
    (st : State) (env : Env) (contract_id : AccountId) (function_id cadence : String)
    (recurring : Option Bool) (deposit gas : Option Nat) (arguments : Option (List Nat))
    (ns : Nat)
    (hpause : st.paused = false)
    (hparse : env.parses cadence = true)
    (hfee : 0 < st.agent_fee)
    (hres : get_slot_from_cadence st env cadence = some ns)
    (hnew : alist_get
        ({ contract_id := contract_id, function_id := function_id, cadence := cadence,
           owner_id := env.predecessor_account_id } : TaskKey) st.tasks = none) :
    ((create_task st
        { env with attached_deposit :=
            if recurring = some true then
              (deposit.getD 0 + gas.getD GAS_BASE_FEE * st.gas_price + st.agent_fee) * 2
            else deposit.getD 0 + gas.getD GAS_BASE_FEE * st.gas_price + st.agent_fee }
        contract_id function_id cadence recurring deposit gas arguments).toOption.isSome
      = true) ∧
    (create_task st
        { env with attached_deposit :=
            (if recurring = some true then
              (deposit.getD 0 + gas.getD GAS_BASE_FEE * st.gas_price + st.agent_fee) * 2
            else deposit.getD 0 + gas.getD GAS_BASE_FEE * st.gas_price + st.agent_fee) - 1 }
        contract_id function_id cadence recurring deposit gas arguments =
      Except.error ("Not enough task balance to execute job")) := by
  constructor
  · by_cases hb : recurring = some true
    · simp [create_task, validate_cadence, hash, hpause, hparse, hb, task_balance_uses,
        get_slot_from_cadence_env_deposit, hres, hnew, Except.toOption]
    · simp [create_task, validate_cadence, hash, hpause, hparse, hb, task_balance_uses,
        get_slot_from_cadence_env_deposit, hres, hnew, Except.toOption]
  · by_cases hb : recurring = some true
    · have hnle : ¬ ((deposit.getD 0 + gas.getD GAS_BASE_FEE * st.gas_price + st.agent_fee) * 2 ≤
          (deposit.getD 0 + gas.getD GAS_BASE_FEE * st.gas_price + st.agent_fee) * 2 - 1) := by
        omega
      simp [create_task, validate_cadence, hpause, hparse, hb, task_balance_uses, hnle]
    · have hnle : ¬ (deposit.getD 0 + gas.getD GAS_BASE_FEE * st.gas_price + st.agent_fee ≤
          deposit.getD 0 + gas.getD GAS_BASE_FEE * st.gas_price + st.agent_fee - 1) := by
        omega
      simp [create_task, validate_cadence, hpause, hparse, hb, task_balance_uses, hnle]

/-- C7 witness: a recurring fixture task with call cost 17 is created
with exactly 34 attached and rejected as underfunded with 33. -/
theorem create_task_minimum_budget_boundary_witness :
    ((create_task stEmptyCat { envCreate with attached_deposit := 34 } "ctr" "f" "c"
        (some true) (some 10) (some 2) none).toOption.isSome = true) ∧
    (create_task stEmptyCat { envCreate with attached_deposit := 33 } "ctr" "f" "c"
        (some true) (some 10) (some 2) none =
      Except.error ("Not enough task balance to execute job")) := by
  exact create_task_minimum_budget_boundary stEmptyCat envCreate "ctr" "f" "c"
    (some true) (some 10) (some 2) none 180 rfl rfl (by decide) (by decide) (by decide)

/-- C8: a second `create_task` whose (target, function, cadence, owner)
tuple matches an existing task fails with the already-exists error —
whatever its deposit, gas, recurring flag or arguments — and the first
task is still in the catalog.  (The second call is assumed to clear the
checks that precede the duplicate check: pause, cadence parse, funding.) -/
theorem duplicate_task_tuple_rejected
    (st : State) (env1 env2 : Env) (cid : AccountId) (fid cad : String)
    (r1 r2 : Option Bool) (d1 d2 g1 g2 : Option Nat) (a1 a2 : Option (List Nat))
    (st1 : State) (k1 : TaskKey) (ns2 : Nat)
    (hfirst : create_task st env1 cid fid cad r1 d1 g1 a1 = Except.ok (st1, k1))
    (howner : env2.predecessor_account_id = env1.predecessor_account_id)
    (hparse2 : env2.parses cad = true)
    (hres2 : get_slot_from_cadence st1 env2 cad = some ns2)
    (hfund2 : (if r2 = some true
        then (d2.getD 0 + g2.getD GAS_BASE_FEE * st1.gas_price + st1.agent_fee) * 2
        else d2.getD 0 + g2.getD GAS_BASE_FEE * st1.gas_price + st1.agent_fee) ≤
      env2.attached_deposit) :
    create_task st1 env2 cid fid cad r2 d2 g2 a2 = Except.error ("Task already exists") ∧
      (alist_get k1 st1.tasks).isSome = true := by
  obtain ⟨hp, -, hk, ns1, -, -, hst1⟩ :=
    create_task_ok_inv st env1 cid fid cad r1 d1 g1 a1 st1 k1 hfirst
  subst hk
  have hpa : st1.paused = false := by
    rw [hst1]
    exact hp
  have hdup2 : (alist_get
      ({ contract_id := cid, function_id := fid, cadence := cad,
         owner_id := env1.predecessor_account_id } : TaskKey) st1.tasks).isSome = true := by
    rw [hst1]
    simp [alist_get_insert_self]
  refine ⟨?_, hdup2⟩
  by_cases hb : r2 = some true
  · rw [if_pos hb] at hfund2
    simp [create_task, validate_cadence, hash, hpa, hparse2, hb, task_balance_uses, hfund2,
      hres2, howner, hdup2]
  · rw [if_neg hb] at hfund2
    simp [create_task, validate_cadence, hash, hpa, hparse2, hb, task_balance_uses, hfund2,
      hres2, howner, hdup2]

/-- C8 witness: after the fixture creation by "bob", a second creation of
the same (ctr, f, c, bob) tuple with different deposit, gas and recurring
flag fails with already-exists while the first record remains. -/
theorem duplicate_task_tuple_rejected_witness :
    create_task stAfterCreate envCreate2 "ctr" "f" "c" (some true) (some 0) (some 1) none =
        Except.error ("Task already exists") ∧
      (alist_get keyFix stAfterCreate.tasks).isSome = true := by
  exact duplicate_task_tuple_rejected stEmptyCat envCreate envCreate2 "ctr" "f" "c"
    (some false) (some true) (some 10) (some 0) (some 2) (some 1) none none
    stAfterCreate keyFix 180 rfl rfl rfl (by decide) (by decide)

end Manager
